import Mathlib

/-!
Shallow embedding of `src/train/utils.py` (the whole repository): the
`TrainingProgress` tracker class and the `train_epoch` driver function.

Modelling conventions:
- Python floats are modelled as `ℚ` (exact arithmetic; the spec's properties
  are stated "to floating-point tolerance", which exact rationals satisfy).
- Python ints are `ℤ`, batch counts are `ℕ`.
- Python exceptions are explicit: a method that can raise returns its state
  together with an `Option PyErr`; because Python mutates `self` in place,
  the returned state reflects exactly the field writes performed before the
  raise.
- `torch.save(model.state_dict(), name)` is modelled as an emitted checkpoint
  artifact carrying the file name built by `"epoch-%d-%d.pt" % (epoch, int(acc))`.
- The class declares `average_training_loss` etc. as class-level attributes
  equal to 0; a fresh instance therefore observes 0 in every accumulator, and
  `self.x += v` / `self.x = v` write instance attributes.  The main model
  `TrainingProgress` carries the per-instance observable values directly
  (accumulators start at 0).  A second model (`ClassAttrs` / `PyInstance`)
  makes the class-attribute lookup explicit to settle the cross-instance
  claim.
-/

set_option autoImplicit false

namespace Keita

/-- Python exceptions that the code in `src/train/utils.py` can raise. -/
inductive PyErr where
  /-- `assert progress is not None` failing in `train_epoch`. -/
  | assertionError
  /-- `x /= 0` on a Python number raises `ZeroDivisionError`. -/
  | zeroDivisionError
  /-- `x += None` on a Python number raises `TypeError`. -/
  | typeError
  deriving DecidableEq, Repr

/-- Per-instance observable state of a `TrainingProgress` object.
Field names follow the Python class.  The four accumulator fields are
declared at class level with value 0 in the source; a fresh instance reads
them as 0 and every write creates an instance attribute, so the observable
state of one instance is exactly this record. -/
structure TrainingProgress where
  epoch : ℤ
  track_accuracy : Bool
  best_validation_loss : ℚ
  average_training_loss : ℚ
  average_validation_loss : ℚ
  average_training_acc : ℚ
  average_validation_acc : ℚ
  deriving DecidableEq, Repr

/-- `TrainingProgress.__init__(self, epoch=0, track_accuracy=True,
best_validation_loss=1e6)`: sets the three parameters; the accumulators are
the class-level defaults, all 0. -/
def TrainingProgress.init (epoch : ℤ) (track_accuracy : Bool)
    (best_validation_loss : ℚ) : TrainingProgress :=
  { epoch := epoch
    track_accuracy := track_accuracy
    best_validation_loss := best_validation_loss
    average_training_loss := 0
    average_validation_loss := 0
    average_training_acc := 0
    average_validation_acc := 0 }

/-- The default-argument constructor call `TrainingProgress()`. -/
def TrainingProgress.initDefault : TrainingProgress :=
  TrainingProgress.init 0 true 1000000

/-- Result of a method that mutates the tracker and can raise. -/
structure UpdateResult where
  state : TrainingProgress
  err : Option PyErr
  deriving DecidableEq, Repr

/-- `TrainingProgress.update_progress(self, train, epoch, loss, acc=None)`.
Adds `loss` to the phase loss accumulator; when `track_accuracy` is set, adds
`acc` to the phase accuracy accumulator — and `self.average_*_acc += None`
raises `TypeError` (state keeps the writes made before the raise). -/
def TrainingProgress.update_progress (s : TrainingProgress) (train : Bool)
    (epoch : ℤ) (loss : ℚ) (acc : Option ℚ) : UpdateResult :=
  let s := { s with epoch := epoch }
  if train then
    let s := { s with average_training_loss := s.average_training_loss + loss }
    if s.track_accuracy then
      match acc with
      | none => ⟨s, some PyErr.typeError⟩
      | some a => ⟨{ s with average_training_acc := s.average_training_acc + a }, none⟩
    else ⟨s, none⟩
  else
    let s := { s with average_validation_loss := s.average_validation_loss + loss }
    if s.track_accuracy then
      match acc with
      | none => ⟨s, some PyErr.typeError⟩
      | some a => ⟨{ s with average_validation_acc := s.average_validation_acc + a }, none⟩
    else ⟨s, none⟩

/-- `TrainingProgress.start_epoch(self, train)`: zeroes the accumulators of
the selected phase. -/
def TrainingProgress.start_epoch (s : TrainingProgress) (train : Bool) :
    TrainingProgress :=
  if train then
    { s with average_training_acc := 0, average_training_loss := 0 }
  else
    { s with average_validation_loss := 0, average_validation_acc := 0 }

/-- Python `int(q)` on a float: truncation toward zero.  `q.den` is positive
and `Int.tdiv` is T-division, so this truncates `q` toward zero. -/
def pyInt (q : ℚ) : ℤ :=
  Int.tdiv q.num q.den

/-- The checkpoint file name `"epoch-%d-%d.pt" % (epoch, int(acc))`. -/
def checkpointName (epoch : ℤ) (acc : ℚ) : String :=
  "epoch-" ++ toString epoch ++ "-" ++ toString (pyInt acc) ++ ".pt"

/-- Result of `finish_epoch`: the mutated tracker, the checkpoint file written
by `torch.save` (if any), and the exception raised (if any).  The two options
are mutually exclusive by construction. -/
structure FinishResult where
  state : TrainingProgress
  saved : Option String
  err : Option PyErr
  deriving DecidableEq, Repr

/-- `TrainingProgress.finish_epoch(self, train, epoch, model, num_batches)`.
Divides the phase accumulators by `num_batches` (Python raises
`ZeroDivisionError` on `x /= 0` before any accumulator is written); on the
validation phase, if `self.best_validation_loss > self.average_validation_loss`
it updates the best and saves a checkpoint named from `(self.epoch,
int(self.average_validation_acc))`.  The opaque `model` argument plays no role
in the control flow and is omitted. -/
def TrainingProgress.finish_epoch (s : TrainingProgress) (train : Bool)
    (epoch : ℤ) (num_batches : ℕ) : FinishResult :=
  let s := { s with epoch := epoch }
  if train then
    if num_batches = 0 then ⟨s, none, some PyErr.zeroDivisionError⟩
    else
      ⟨{ s with
          average_training_acc := s.average_training_acc / (num_batches : ℚ)
          average_training_loss := s.average_training_loss / (num_batches : ℚ) },
        none, none⟩
  else
    if num_batches = 0 then ⟨s, none, some PyErr.zeroDivisionError⟩
    else
      let s := { s with
        average_validation_acc := s.average_validation_acc / (num_batches : ℚ)
        average_validation_loss := s.average_validation_loss / (num_batches : ℚ) }
      if s.best_validation_loss > s.average_validation_loss then
        ⟨{ s with best_validation_loss := s.average_validation_loss },
          some (checkpointName s.epoch s.average_validation_acc), none⟩
      else ⟨s, none, none⟩

/-- The loss accumulator of the phase selected by `train`. -/
def phaseLoss (s : TrainingProgress) (train : Bool) : ℚ :=
  if train then s.average_training_loss else s.average_validation_loss

/-- The accuracy accumulator of the phase selected by `train`. -/
def phaseAcc (s : TrainingProgress) (train : Bool) : ℚ :=
  if train then s.average_training_acc else s.average_validation_acc

/-- One call on the tracker's public interface, for reasoning about arbitrary
call sequences (`StartPhase` / `RecordBatch` / `FinishPhase` of the spec). -/
inductive Op where
  | startPhase (train : Bool)
  | recordBatch (train : Bool) (epoch : ℤ) (loss : ℚ) (acc : Option ℚ)
  | finishPhase (train : Bool) (epoch : ℤ) (numBatches : ℕ)
  deriving DecidableEq, Repr

/-- Execute one tracker call; the checkpoint artifact is irrelevant to the
call-sequence claims and dropped here. -/
def stepOp (s : TrainingProgress) : Op → TrainingProgress × Option PyErr
  | Op.startPhase t => (s.start_epoch t, none)
  | Op.recordBatch t e l a =>
      let r := s.update_progress t e l a
      (r.state, r.err)
  | Op.finishPhase t e n =>
      let r := s.finish_epoch t e n
      (r.state, r.err)

/-- Execute a sequence of tracker calls, stopping at the first exception; the
returned state is the tracker as Python leaves it (in-place mutations made
before the raise included). -/
def runOps : TrainingProgress → List Op → TrainingProgress × Option PyErr
  | s, [] => (s, none)
  | s, op :: ops =>
    match stepOp s op with
    | (s', none) => runOps s' ops
    | (s', some e) => (s', some e)

/-- `StartPhase` followed by the batch records of one phase: the accumulation
loop of the driver, abstracted over the `(loss, accuracy)` values of each
batch. -/
def recordPhase (s : TrainingProgress) (train : Bool) (epoch : ℤ)
    (batches : List (ℚ × ℚ)) : TrainingProgress :=
  batches.foldl
    (fun t b => (t.update_progress train epoch b.1 (some b.2)).state)
    (s.start_epoch train)

/-!
### The epoch driver `train_epoch`

Observable side effects are modelled as an event trace: mode switches on the
model, each call to the external `processor` with the arguments actually
passed (`trainArg = none` means the `train` keyword argument was omitted in
the call, so the processor's own default applies), and checkpoint writes.
The `tqdm` progress display and the two `print` statements are purely
observational console output and are not modelled.  The `.data[0]` scalar
extraction happens at the processor boundary, so the processor is abstracted
as already yielding rational scalars `(loss, accuracy)`.
-/

/-- Observable events of one `train_epoch` call, in order. -/
inductive Event where
  | modeTrain
  | modeEval
  | procCall (batch : ℕ) (trainArg : Option Bool)
  | saved (name : String)
  deriving DecidableEq, Repr

/-- The per-batch loop of `train_epoch` over one iterator.  When
`track_accuracy` is set the source calls `processor(batch, train=...)` and
records loss and accuracy; otherwise it calls `processor(batch)` — no `train`
argument — and records only the loss.  Neither `update_progress` call can
raise: with tracking on the accuracy is always supplied, with tracking off it
is never referenced. -/
def loopPhase (processor : ℕ → Option Bool → ℚ × ℚ) (train : Bool) (epoch : ℤ) :
    TrainingProgress → List ℕ → TrainingProgress × List Event
  | p, [] => (p, [])
  | p, b :: bs =>
    if p.track_accuracy then
      let la := processor b (some train)
      let r := p.update_progress train epoch la.1 (some la.2)
      let rest := loopPhase processor train epoch r.state bs
      (rest.1, Event.procCall b (some train) :: rest.2)
    else
      let la := processor b none
      let r := p.update_progress train epoch la.1 none
      let rest := loopPhase processor train epoch r.state bs
      (rest.1, Event.procCall b none :: rest.2)

/-- `train_epoch(epoch, model, train_iterator, valid_iterator, processor,
progress)`.  Asserts `progress is not None` first; then training mode, the
training loop, `finish_epoch`; then, when a validation iterator is given,
evaluation mode, the validation loop and its `finish_epoch` (which may save a
checkpoint).  Exceptions propagate uncaught, aborting the remaining events. -/
def train_epoch (epoch : ℤ) (train_iterator : List ℕ)
    (valid_iterator : Option (List ℕ)) (processor : ℕ → Option Bool → ℚ × ℚ)
    (progress : Option TrainingProgress) :
    List Event × Except PyErr TrainingProgress :=
  match progress with
  | none => ([], Except.error PyErr.assertionError)
  | some p =>
    let t := loopPhase processor true epoch (p.start_epoch true) train_iterator
    let f1 := t.1.finish_epoch true epoch train_iterator.length
    let evA := Event.modeTrain :: t.2
    match f1.err with
    | some e => (evA, Except.error e)
    | none =>
      match valid_iterator with
      | none => (evA, Except.ok f1.state)
      | some vbs =>
        let v := loopPhase processor false epoch (f1.state.start_epoch false) vbs
        let f2 := v.1.finish_epoch false epoch vbs.length
        let evB := evA ++ Event.modeEval :: v.2 ++ (f2.saved.map Event.saved).toList
        match f2.err with
        | some e => (evB, Except.error e)
        | none => (evB, Except.ok f2.state)

/-!
### Python attribute semantics for the class-level accumulator defaults

The source declares the four accumulators at class level
(`average_training_loss, average_validation_loss = 0, 0` and likewise for the
accuracies).  Reading `self.x` falls back to the class attribute when the
instance has none; `self.x = v` and `self.x += v` (numbers are immutable, so
`+=` is read-then-rebind) always write the instance attribute.  This model
makes that lookup explicit to settle the cross-instance-leakage claim.
-/

/-- The class-level attributes of `TrainingProgress`, shared by all
instances. -/
structure ClassAttrs where
  average_training_loss : ℚ
  average_validation_loss : ℚ
  average_training_acc : ℚ
  average_validation_acc : ℚ
  deriving DecidableEq, Repr

/-- The class-attribute values as declared in the source: all four 0. -/
def classDefaults : ClassAttrs := ⟨0, 0, 0, 0⟩

/-- One `TrainingProgress` instance's own attribute dictionary: `__init__`
always sets `epoch`, `track_accuracy` and `best_validation_loss`; each
accumulator is present only after some method wrote it on this instance. -/
structure PyInstance where
  epoch : ℤ
  track_accuracy : Bool
  best_validation_loss : ℚ
  average_training_loss : Option ℚ
  average_validation_loss : Option ℚ
  average_training_acc : Option ℚ
  average_validation_acc : Option ℚ
  deriving DecidableEq, Repr

/-- `TrainingProgress.__init__` under attribute semantics: no accumulator in
the instance dictionary yet. -/
def PyInstance.init (epoch : ℤ) (track_accuracy : Bool)
    (best_validation_loss : ℚ) : PyInstance :=
  ⟨epoch, track_accuracy, best_validation_loss, none, none, none, none⟩

/-- Attribute read `self.average_training_loss`: instance value when present,
class attribute otherwise. -/
def PyInstance.readATL (c : ClassAttrs) (i : PyInstance) : ℚ :=
  i.average_training_loss.getD c.average_training_loss

/-- Attribute read `self.average_validation_loss`. -/
def PyInstance.readAVL (c : ClassAttrs) (i : PyInstance) : ℚ :=
  i.average_validation_loss.getD c.average_validation_loss

/-- Attribute read `self.average_training_acc`. -/
def PyInstance.readATA (c : ClassAttrs) (i : PyInstance) : ℚ :=
  i.average_training_acc.getD c.average_training_acc

/-- Attribute read `self.average_validation_acc`. -/
def PyInstance.readAVA (c : ClassAttrs) (i : PyInstance) : ℚ :=
  i.average_validation_acc.getD c.average_validation_acc

/-- `update_progress` under attribute semantics: every `self.x += v` reads
through the class fallback and writes the instance attribute. -/
def PyInstance.update_progress (c : ClassAttrs) (i : PyInstance) (train : Bool)
    (epoch : ℤ) (loss : ℚ) (acc : Option ℚ) : PyInstance × Option PyErr :=
  let i := { i with epoch := epoch }
  if train then
    let i := { i with average_training_loss := some (i.readATL c + loss) }
    if i.track_accuracy then
      match acc with
      | none => (i, some PyErr.typeError)
      | some a => ({ i with average_training_acc := some (i.readATA c + a) }, none)
    else (i, none)
  else
    let i := { i with average_validation_loss := some (i.readAVL c + loss) }
    if i.track_accuracy then
      match acc with
      | none => (i, some PyErr.typeError)
      | some a => ({ i with average_validation_acc := some (i.readAVA c + a) }, none)
    else (i, none)

/-- `start_epoch` under attribute semantics: plain instance-attribute
assignments. -/
def PyInstance.start_epoch (i : PyInstance) (train : Bool) : PyInstance :=
  if train then
    { i with average_training_acc := some 0, average_training_loss := some 0 }
  else
    { i with average_validation_loss := some 0, average_validation_acc := some 0 }

/-- `finish_epoch` under attribute semantics. -/
def PyInstance.finish_epoch (c : ClassAttrs) (i : PyInstance) (train : Bool)
    (epoch : ℤ) (num_batches : ℕ) : PyInstance × Option String × Option PyErr :=
  let i := { i with epoch := epoch }
  if train then
    if num_batches = 0 then (i, none, some PyErr.zeroDivisionError)
    else
      ({ i with
          average_training_acc := some (i.readATA c / (num_batches : ℚ))
          average_training_loss := some (i.readATL c / (num_batches : ℚ)) },
        none, none)
  else
    if num_batches = 0 then (i, none, some PyErr.zeroDivisionError)
    else
      let i := { i with
        average_validation_acc := some (i.readAVA c / (num_batches : ℚ))
        average_validation_loss := some (i.readAVL c / (num_batches : ℚ)) }
      if i.best_validation_loss > i.readAVL c then
        ({ i with best_validation_loss := i.readAVL c },
          some (checkpointName i.epoch (i.readAVA c)), none)
      else (i, none, none)

/-- Two tracker instances sharing the one class-attribute record. -/
structure TwoTrackers where
  cls : ClassAttrs
  a : PyInstance
  b : PyInstance
  deriving DecidableEq, Repr

/-- Perform one tracker call on instance `a` of the shared world.  All writes
of the three methods are `self.x = ...` forms, i.e. instance-attribute
writes; nothing assigns to the class object, so `cls` passes through. -/
def stepOnA (w : TwoTrackers) : Op → TwoTrackers × Option PyErr
  | Op.startPhase t => ({ w with a := w.a.start_epoch t }, none)
  | Op.recordBatch t e l ac =>
      let r := PyInstance.update_progress w.cls w.a t e l ac
      ({ w with a := r.1 }, r.2)
  | Op.finishPhase t e n =>
      let r := PyInstance.finish_epoch w.cls w.a t e n
      ({ w with a := r.1 }, r.2.2)

/-- Run a sequence of tracker calls on instance `a`, stopping at the first
exception. -/
def runOnA : TwoTrackers → List Op → TwoTrackers × Option PyErr
  | w, [] => (w, none)
  | w, op :: ops =>
    match stepOnA w op with
    | (w', none) => runOnA w' ops
    | (w', some e) => (w', some e)

/-- A tracker mid-validation-phase: best loss 5, validation loss sum 6 over
the 2 batches about to be finished (mean 3 < 5). -/
def sampleVal : TrainingProgress :=
  { epoch := 0
    track_accuracy := true
    best_validation_loss := 5
    average_training_loss := 0
    average_validation_loss := 6
    average_training_acc := 0
    average_validation_acc := 4 }

/-!
## Theorems for the claims
-/

/-- C1: `FinishPhase` on the validation phase writes a checkpoint iff the new
mean validation loss (`sum / numBatches`) is strictly below the stored best;
on equality nothing is written and the best is unchanged; on strict
improvement the best becomes the new mean. -/
theorem checkpoint_iff_strict_improvement (s : TrainingProgress) (epoch : ℤ)
    (n : ℕ) (h : n ≠ 0) :
    (((s.finish_epoch false epoch n).saved.isSome) ↔
        s.average_validation_loss / n < s.best_validation_loss) ∧
    (s.average_validation_loss / n = s.best_validation_loss →
        (s.finish_epoch false epoch n).saved = none ∧
        (s.finish_epoch false epoch n).state.best_validation_loss =
          s.best_validation_loss) ∧
    (s.average_validation_loss / n < s.best_validation_loss →
        (s.finish_epoch false epoch n).state.best_validation_loss =
          s.average_validation_loss / n) := by
  by_cases hc : s.average_validation_loss / n < s.best_validation_loss <;>
    simp [TrainingProgress.finish_epoch, h, hc]
  intro he
  rw [he] at hc
  exact absurd hc (lt_irrefl _)

/-- C1 witness: on `sampleVal` with 2 batches the mean 3 improves on the best
5, so a checkpoint is written and the best becomes 3. -/
theorem checkpoint_iff_strict_improvement_witness :
    (2 : ℕ) ≠ 0 ∧
    ((((sampleVal.finish_epoch false 0 2).saved.isSome) ↔
        sampleVal.average_validation_loss / 2 < sampleVal.best_validation_loss) ∧
    (sampleVal.average_validation_loss / 2 = sampleVal.best_validation_loss →
        (sampleVal.finish_epoch false 0 2).saved = none ∧
        (sampleVal.finish_epoch false 0 2).state.best_validation_loss =
          sampleVal.best_validation_loss) ∧
    (sampleVal.average_validation_loss / 2 < sampleVal.best_validation_loss →
        (sampleVal.finish_epoch false 0 2).state.best_validation_loss =
          sampleVal.average_validation_loss / 2)) :=
  ⟨by decide, checkpoint_iff_strict_improvement sampleVal 0 2 (by decide)⟩

/-- C6: `start_epoch` immediately followed by `finish_epoch` with
`num_batches = 0` raises `ZeroDivisionError` instead of returning normally,
on the training phase and on the validation phase alike, and no checkpoint is
written. -/
theorem finish_zero_batches_raises (s : TrainingProgress) (train : Bool)
    (epoch : ℤ) :
    ((s.start_epoch train).finish_epoch train epoch 0).err =
        some PyErr.zeroDivisionError ∧
    ((s.start_epoch train).finish_epoch train epoch 0).saved = none := by
  cases train <;>
    simp [TrainingProgress.start_epoch, TrainingProgress.finish_epoch]

/-- C8: with accuracy tracking enabled, `update_progress` with the accuracy
argument left at its `None` default raises `TypeError`, and neither accuracy
accumulator is updated with any default value. -/
theorem update_missing_acc_raises (s : TrainingProgress) (train : Bool)
    (epoch : ℤ) (loss : ℚ) (h : s.track_accuracy = true) :
    (s.update_progress train epoch loss none).err = some PyErr.typeError ∧
    (s.update_progress train epoch loss none).state.average_training_acc =
      s.average_training_acc ∧
    (s.update_progress train epoch loss none).state.average_validation_acc =
      s.average_validation_acc := by
  cases train <;> simp [TrainingProgress.update_progress, h]

/-- C8 witness: the default tracker has tracking enabled, so recording a
batch without an accuracy raises `TypeError` and leaves the accuracy
accumulators alone. -/
theorem update_missing_acc_raises_witness :
    TrainingProgress.initDefault.track_accuracy = true ∧
    ((TrainingProgress.initDefault.update_progress true 1 2 none).err =
        some PyErr.typeError ∧
    (TrainingProgress.initDefault.update_progress true 1 2 none).state.average_training_acc =
      TrainingProgress.initDefault.average_training_acc ∧
    (TrainingProgress.initDefault.update_progress true 1 2 none).state.average_validation_acc =
      TrainingProgress.initDefault.average_validation_acc) :=
  ⟨rfl, update_missing_acc_raises TrainingProgress.initDefault true 1 2 rfl⟩

/-- `update_progress` with a supplied accuracy leaves the tracking flag
unchanged. -/
lemma update_some_track (s : TrainingProgress) (train : Bool) (epoch : ℤ)
    (l a : ℚ) :
    ((s.update_progress train epoch l (some a)).state).track_accuracy =
      s.track_accuracy := by
  cases train <;> by_cases h : s.track_accuracy <;>
    simp [TrainingProgress.update_progress, h]

/-- `update_progress` adds the loss to the selected phase's loss
accumulator. -/
lemma update_some_phaseLoss (s : TrainingProgress) (train : Bool) (epoch : ℤ)
    (l a : ℚ) :
    phaseLoss (s.update_progress train epoch l (some a)).state train =
      phaseLoss s train + l := by
  cases train <;> by_cases h : s.track_accuracy <;>
    simp [TrainingProgress.update_progress, phaseLoss, h]

/-- With tracking enabled, `update_progress` adds the accuracy to the
selected phase's accuracy accumulator. -/
lemma update_some_phaseAcc (s : TrainingProgress) (train : Bool) (epoch : ℤ)
    (l a : ℚ) (h : s.track_accuracy = true) :
    phaseAcc (s.update_progress train epoch l (some a)).state train =
      phaseAcc s train + a := by
  cases train <;> simp [TrainingProgress.update_progress, phaseAcc, h]

/-- Folding batch records preserves the tracking flag. -/
lemma foldlRecord_track (train : Bool) (epoch : ℤ) (bs : List (ℚ × ℚ)) :
    ∀ t : TrainingProgress,
      (bs.foldl (fun t b => (t.update_progress train epoch b.1 (some b.2)).state)
        t).track_accuracy = t.track_accuracy := by
  induction bs with
  | nil => intro t; rfl
  | cons b bs ih => intro t; rw [List.foldl_cons, ih, update_some_track]

/-- Folding batch records adds the losses to the phase loss accumulator. -/
lemma foldlRecord_phaseLoss (train : Bool) (epoch : ℤ) (bs : List (ℚ × ℚ)) :
    ∀ t : TrainingProgress,
      phaseLoss
        (bs.foldl (fun t b => (t.update_progress train epoch b.1 (some b.2)).state) t)
        train = phaseLoss t train + (bs.map Prod.fst).sum := by
  induction bs with
  | nil => intro t; simp
  | cons b bs ih =>
    intro t
    rw [List.foldl_cons, ih, update_some_phaseLoss]
    simp [add_assoc]

/-- With tracking enabled, folding batch records adds the accuracies to the
phase accuracy accumulator. -/
lemma foldlRecord_phaseAcc (train : Bool) (epoch : ℤ) (bs : List (ℚ × ℚ)) :
    ∀ t : TrainingProgress, t.track_accuracy = true →
      phaseAcc
        (bs.foldl (fun t b => (t.update_progress train epoch b.1 (some b.2)).state) t)
        train = phaseAcc t train + (bs.map Prod.snd).sum := by
  induction bs with
  | nil => intro t _; simp
  | cons b bs ih =>
    intro t ht
    rw [List.foldl_cons, ih _ (by rw [update_some_track]; exact ht),
      update_some_phaseAcc _ _ _ _ _ ht]
    simp [add_assoc]

/-- `start_epoch` zeroes the selected phase's loss accumulator. -/
lemma start_phaseLoss (s : TrainingProgress) (train : Bool) :
    phaseLoss (s.start_epoch train) train = 0 := by
  cases train <;> simp [TrainingProgress.start_epoch, phaseLoss]

/-- `start_epoch` zeroes the selected phase's accuracy accumulator. -/
lemma start_phaseAcc (s : TrainingProgress) (train : Bool) :
    phaseAcc (s.start_epoch train) train = 0 := by
  cases train <;> simp [TrainingProgress.start_epoch, phaseAcc]

/-- `start_epoch` preserves the tracking flag. -/
lemma start_track (s : TrainingProgress) (train : Bool) :
    (s.start_epoch train).track_accuracy = s.track_accuracy := by
  cases train <;> rfl

/-- `recordPhase` leaves the phase loss accumulator at the sum of the
losses. -/
lemma recordPhase_phaseLoss (s : TrainingProgress) (train : Bool) (epoch : ℤ)
    (bs : List (ℚ × ℚ)) :
    phaseLoss (recordPhase s train epoch bs) train = (bs.map Prod.fst).sum := by
  unfold recordPhase
  rw [foldlRecord_phaseLoss, start_phaseLoss, zero_add]

/-- With tracking enabled, `recordPhase` leaves the phase accuracy
accumulator at the sum of the accuracies. -/
lemma recordPhase_phaseAcc (s : TrainingProgress) (train : Bool) (epoch : ℤ)
    (bs : List (ℚ × ℚ)) (h : s.track_accuracy = true) :
    phaseAcc (recordPhase s train epoch bs) train = (bs.map Prod.snd).sum := by
  unfold recordPhase
  rw [foldlRecord_phaseAcc _ _ _ _ (by rw [start_track]; exact h),
    start_phaseAcc, zero_add]

/-- `recordPhase` preserves the tracking flag. -/
lemma recordPhase_track (s : TrainingProgress) (train : Bool) (epoch : ℤ)
    (bs : List (ℚ × ℚ)) :
    (recordPhase s train epoch bs).track_accuracy = s.track_accuracy := by
  unfold recordPhase
  rw [foldlRecord_track, start_track]

/-- With a nonzero batch count, `finish_epoch` divides the phase loss
accumulator by the batch count. -/
lemma finish_phaseLoss (s : TrainingProgress) (train : Bool) (epoch : ℤ)
    (n : ℕ) (h : n ≠ 0) :
    phaseLoss (s.finish_epoch train epoch n).state train =
      phaseLoss s train / (n : ℚ) := by
  cases train <;> simp only [TrainingProgress.finish_epoch, h, if_false,
    if_true, Bool.false_eq_true, phaseLoss, ite_false, ite_true] <;>
    split <;> rfl

/-- With a nonzero batch count, `finish_epoch` divides the phase accuracy
accumulator by the batch count. -/
lemma finish_phaseAcc (s : TrainingProgress) (train : Bool) (epoch : ℤ)
    (n : ℕ) (h : n ≠ 0) :
    phaseAcc (s.finish_epoch train epoch n).state train =
      phaseAcc s train / (n : ℚ) := by
  cases train <;> simp only [TrainingProgress.finish_epoch, h, if_false,
    if_true, Bool.false_eq_true, phaseAcc, ite_false, ite_true] <;>
    split <;> rfl

/-- C2: recording losses `L₁..Lₙ` (with accuracies `A₁..Aₙ`) after a
`start_epoch` and then finishing with `num_batches = n` leaves the phase loss
accumulator at `(ΣLᵢ)/n`, and — when accuracy tracking is enabled — the
phase accuracy accumulator at `(ΣAᵢ)/n`. -/
theorem phase_mean_of_records (s : TrainingProgress) (train : Bool)
    (epoch : ℤ) (batches : List (ℚ × ℚ)) (h : batches ≠ []) :
    phaseLoss
        ((recordPhase s train epoch batches).finish_epoch train epoch
          batches.length).state train =
      (batches.map Prod.fst).sum / (batches.length : ℚ) ∧
    (s.track_accuracy = true →
      phaseAcc
          ((recordPhase s train epoch batches).finish_epoch train epoch
            batches.length).state train =
        (batches.map Prod.snd).sum / (batches.length : ℚ)) := by
  have hn : batches.length ≠ 0 := by
    simpa [List.length_eq_zero] using h
  constructor
  · rw [finish_phaseLoss _ _ _ _ hn, recordPhase_phaseLoss]
  · intro ht
    rw [finish_phaseAcc _ _ _ _ hn, recordPhase_phaseAcc _ _ _ _ ht]

/-- C2 witness: losses `[2, 4]` with accuracies `[1, 3]` over two batches
give mean loss `3` and mean accuracy `2`. -/
theorem phase_mean_of_records_witness :
    ([((2 : ℚ), (1 : ℚ)), (4, 3)] : List (ℚ × ℚ)) ≠ [] ∧
    (phaseLoss
        ((recordPhase TrainingProgress.initDefault true 0
            [((2 : ℚ), (1 : ℚ)), (4, 3)]).finish_epoch true 0
          ([((2 : ℚ), (1 : ℚ)), (4, 3)] : List (ℚ × ℚ)).length).state true =
      (([((2 : ℚ), (1 : ℚ)), (4, 3)] : List (ℚ × ℚ)).map Prod.fst).sum /
        (([((2 : ℚ), (1 : ℚ)), (4, 3)] : List (ℚ × ℚ)).length : ℚ) ∧
    (TrainingProgress.initDefault.track_accuracy = true →
      phaseAcc
          ((recordPhase TrainingProgress.initDefault true 0
              [((2 : ℚ), (1 : ℚ)), (4, 3)]).finish_epoch true 0
            ([((2 : ℚ), (1 : ℚ)), (4, 3)] : List (ℚ × ℚ)).length).state true =
        (([((2 : ℚ), (1 : ℚ)), (4, 3)] : List (ℚ × ℚ)).map Prod.snd).sum /
          (([((2 : ℚ), (1 : ℚ)), (4, 3)] : List (ℚ × ℚ)).length : ℚ))) :=
  ⟨by simp, phase_mean_of_records TrainingProgress.initDefault true 0
    [((2 : ℚ), (1 : ℚ)), (4, 3)] (by simp)⟩

/-- C9: `finish_epoch` on the training phase never touches the stored best
validation loss, never writes a checkpoint, and leaves both validation
accumulators unchanged — whatever the batch count, including the failing
`num_batches = 0` case. -/
theorem finish_training_frame (s : TrainingProgress) (epoch : ℤ) (n : ℕ) :
    (s.finish_epoch true epoch n).state.best_validation_loss =
        s.best_validation_loss ∧
    (s.finish_epoch true epoch n).saved = none ∧
    (s.finish_epoch true epoch n).state.average_validation_loss =
      s.average_validation_loss ∧
    (s.finish_epoch true epoch n).state.average_validation_acc =
      s.average_validation_acc := by
  by_cases h : n = 0 <;> simp [TrainingProgress.finish_epoch, h]

/-- With tracking off and zero accuracy accumulators, any single tracker call
keeps the flag off, keeps both accuracy accumulators at zero, and cannot
raise `TypeError`. -/
lemma stepOp_acc_zero (s : TrainingProgress) (op : Op)
    (h : s.track_accuracy = false) (hta : s.average_training_acc = 0)
    (hva : s.average_validation_acc = 0) :
    (stepOp s op).1.track_accuracy = false ∧
    (stepOp s op).1.average_training_acc = 0 ∧
    (stepOp s op).1.average_validation_acc = 0 ∧
    (stepOp s op).2 ≠ some PyErr.typeError := by
  cases op with
  | startPhase t =>
    cases t <;> simp [stepOp, TrainingProgress.start_epoch, h, hta, hva]
  | recordBatch t e l a =>
    cases t <;> simp [stepOp, TrainingProgress.update_progress, h, hta, hva]
  | finishPhase t e n =>
    cases t <;> by_cases hn : n = 0 <;>
      simp only [stepOp, TrainingProgress.finish_epoch, hn, if_true, if_false,
        Bool.false_eq_true, ite_true, ite_false, h, hta, hva] <;>
      refine ⟨?_, ?_, ?_, ?_⟩ <;>
      first
        | (split <;> simp [h, hta, hva])
        | simp

/-- Running any call sequence from a tracker with tracking off and zero
accuracy accumulators keeps both accuracy accumulators at zero and never
raises `TypeError`. -/
lemma runOps_acc_zero (ops : List Op) :
    ∀ s : TrainingProgress, s.track_accuracy = false →
      s.average_training_acc = 0 → s.average_validation_acc = 0 →
      (runOps s ops).1.average_training_acc = 0 ∧
      (runOps s ops).1.average_validation_acc = 0 ∧
      (runOps s ops).2 ≠ some PyErr.typeError := by
  induction ops with
  | nil => intro s h hta hva; simp [runOps, hta, hva]
  | cons op ops ih =>
    intro s h hta hva
    obtain ⟨h1, h2, h3, h4⟩ := stepOp_acc_zero s op h hta hva
    rcases hstep : stepOp s op with ⟨s', err⟩
    rw [hstep] at h1 h2 h3 h4
    cases err with
    | none => simpa [runOps, hstep] using ih s' h1 h2 h3
    | some e =>
      simp only [runOps, hstep]
      exact ⟨h2, h3, h4⟩

/-- C7: from a tracker constructed with `track_accuracy = false`, any
sequence of `start_epoch` / `update_progress` (accuracy argument absent) /
`finish_epoch` calls leaves both accuracy accumulators at their initial 0,
and no call fails for want of an accuracy argument (`TypeError` is never
raised). -/
theorem no_tracking_acc_stays_zero (e0 : ℤ) (best : ℚ) (ops : List Op)
    (hops : ∀ (t : Bool) (e : ℤ) (l : ℚ) (a : Option ℚ),
      Op.recordBatch t e l a ∈ ops → a = none) :
    (runOps (TrainingProgress.init e0 false best) ops).1.average_training_acc = 0 ∧
    (runOps (TrainingProgress.init e0 false best) ops).1.average_validation_acc = 0 ∧
    (runOps (TrainingProgress.init e0 false best) ops).2 ≠ some PyErr.typeError :=
  runOps_acc_zero ops _ rfl rfl rfl

/-- C7 witness: one full training phase (start, one record without accuracy,
finish over one batch) on a tracker without accuracy tracking. -/
theorem no_tracking_acc_stays_zero_witness :
    (∀ (t : Bool) (e : ℤ) (l : ℚ) (a : Option ℚ),
      Op.recordBatch t e l a ∈
        [Op.startPhase true, Op.recordBatch true 0 2 none,
          Op.finishPhase true 0 1] → a = none) ∧
    ((runOps (TrainingProgress.init 0 false 1000000)
        [Op.startPhase true, Op.recordBatch true 0 2 none,
          Op.finishPhase true 0 1]).1.average_training_acc = 0 ∧
    (runOps (TrainingProgress.init 0 false 1000000)
        [Op.startPhase true, Op.recordBatch true 0 2 none,
          Op.finishPhase true 0 1]).1.average_validation_acc = 0 ∧
    (runOps (TrainingProgress.init 0 false 1000000)
        [Op.startPhase true, Op.recordBatch true 0 2 none,
          Op.finishPhase true 0 1]).2 ≠ some PyErr.typeError) :=
  ⟨by
    intro t e l a hmem
    simp only [List.mem_cons, List.not_mem_nil, or_false] at hmem
    rcases hmem with hmem | hmem | hmem <;> simp_all,
   no_tracking_acc_stays_zero 0 1000000
    [Op.startPhase true, Op.recordBatch true 0 2 none, Op.finishPhase true 0 1]
    (by
      intro t e l a hmem
      simp only [List.mem_cons, List.not_mem_nil, or_false] at hmem
      rcases hmem with hmem | hmem | hmem <;> simp_all)⟩

/-- One tracker call on instance `a` rebinds only instance attributes of
`a`: the class attributes and the sibling instance are untouched. -/
lemma stepOnA_frame (w : TwoTrackers) (op : Op) :
    (stepOnA w op).1.cls = w.cls ∧ (stepOnA w op).1.b = w.b := by
  cases op <;> exact ⟨rfl, rfl⟩

/-- Any call sequence on instance `a` leaves the class attributes and the
sibling instance untouched. -/
lemma runOnA_frame (ops : List Op) :
    ∀ w : TwoTrackers,
      (runOnA w ops).1.cls = w.cls ∧ (runOnA w ops).1.b = w.b := by
  induction ops with
  | nil => intro w; exact ⟨rfl, rfl⟩
  | cons op ops ih =>
    intro w
    have hf := stepOnA_frame w op
    rcases hstep : stepOnA w op with ⟨w', err⟩
    rw [hstep] at hf
    cases err with
    | none =>
      have hi := ih w'
      simp only [runOnA, hstep]
      exact ⟨hi.1.trans hf.1, hi.2.trans hf.2⟩
    | some e =>
      simp only [runOnA, hstep]
      exact hf

/-- C10: under Python attribute semantics (class-level accumulator defaults,
instance-attribute writes), every call sequence on one tracker instance
leaves all four accumulator values observed on the other instance exactly as
they were. -/
theorem no_cross_instance_leakage (w : TwoTrackers) (ops : List Op) :
    PyInstance.readATL (runOnA w ops).1.cls (runOnA w ops).1.b =
        PyInstance.readATL w.cls w.b ∧
    PyInstance.readAVL (runOnA w ops).1.cls (runOnA w ops).1.b =
        PyInstance.readAVL w.cls w.b ∧
    PyInstance.readATA (runOnA w ops).1.cls (runOnA w ops).1.b =
        PyInstance.readATA w.cls w.b ∧
    PyInstance.readAVA (runOnA w ops).1.cls (runOnA w ops).1.b =
        PyInstance.readAVA w.cls w.b := by
  obtain ⟨h1, h2⟩ := runOnA_frame ops w
  rw [h1, h2]
  exact ⟨rfl, rfl, rfl, rfl⟩

/-- The checkpoint identifier as claim C3 words it: epoch index and the
round-to-nearest mean validation accuracy, in the pattern
`epoch-<epoch>-<accuracy>` (with the source's `.pt` extension).  Stated from
the claim, for comparison against `checkpointName` from the source. -/
def claimedCheckpointName (epoch : ℤ) (meanAcc : ℚ) : String :=
  "epoch-" ++ toString epoch ++ "-" ++ toString (round meanAcc) ++ ".pt"

/-- A validation phase leaving mean validation accuracy `2.7`: one recorded
batch with loss `1` and accuracy `27/10` on a fresh default tracker. -/
def sampleValAcc : TrainingProgress :=
  ((TrainingProgress.initDefault.start_epoch false).update_progress false 0 1
    (some (27 / 10))).state

/-- Finishing `sampleValAcc`'s validation phase over its one batch writes the
checkpoint `epoch-0-2.pt`: `int(2.7) = 2`. -/
lemma sampleValAcc_saved :
    (sampleValAcc.finish_epoch false 0 1).saved = some "epoch-0-2.pt" := by
  norm_num [sampleValAcc, TrainingProgress.finish_epoch,
    TrainingProgress.update_progress, TrainingProgress.start_epoch,
    TrainingProgress.initDefault, TrainingProgress.init, checkpointName, pyInt]
  rw [(by decide : Int.tdiv 27 10 = (2 : ℤ))]
  rfl

/-- C3 counterexample: with mean validation accuracy `2.7` the code writes
`epoch-0-2.pt` (truncation toward zero), while the claimed round-to-nearest
identifier is `epoch-0-3.pt`; the two differ. -/
theorem checkpoint_name_not_rounded :
    (sampleValAcc.finish_epoch false 0 1).saved = some "epoch-0-2.pt" ∧
    claimedCheckpointName 0 (27 / 10) = "epoch-0-3.pt" ∧
    (sampleValAcc.finish_epoch false 0 1).saved ≠
      some (claimedCheckpointName 0 (27 / 10)) := by
  refine ⟨sampleValAcc_saved, ?_, ?_⟩
  · have hr : round ((27 : ℚ) / 10) = 3 := by norm_num [round_eq]
    rw [claimedCheckpointName, hr]
    rfl
  · rw [sampleValAcc_saved]
    have hr : round ((27 : ℚ) / 10) = 3 := by norm_num [round_eq]
    rw [claimedCheckpointName, hr]
    intro hcontra
    exact absurd (Option.some_inj.mp hcontra) (by decide)

/-- C3 amended: when validation `finish_epoch` writes a checkpoint, its name
is `epoch-<epoch>-<acc>.pt` where `<acc>` is the mean validation accuracy
truncated toward zero (Python `int`), not rounded to nearest. -/
theorem checkpoint_name_truncated (s : TrainingProgress) (epoch : ℤ) (n : ℕ)
    (name : String) (h : (s.finish_epoch false epoch n).saved = some name) :
    name = "epoch-" ++ toString epoch ++ "-" ++
      toString (pyInt (s.average_validation_acc / (n : ℚ))) ++ ".pt" := by
  rw [TrainingProgress.finish_epoch] at h
  by_cases hn : n = 0
  · simp [hn] at h
  · simp only [hn, Bool.false_eq_true, if_false, ite_false] at h
    split at h
    · exact (Option.some_inj.mp h).symm
    · simp at h

/-- C3 amended witness: on `sampleValAcc` the written name `epoch-0-2.pt`
matches the truncated-accuracy pattern. -/
theorem checkpoint_name_truncated_witness :
    (sampleValAcc.finish_epoch false 0 1).saved = some "epoch-0-2.pt" ∧
    "epoch-0-2.pt" = "epoch-" ++ toString (0 : ℤ) ++ "-" ++
      toString (pyInt (sampleValAcc.average_validation_acc / ((1 : ℕ) : ℚ))) ++
      ".pt" :=
  ⟨sampleValAcc_saved,
    checkpoint_name_truncated sampleValAcc 0 1 "epoch-0-2.pt" sampleValAcc_saved⟩

/-- C5: `train_epoch` with `progress=None` fails at the opening assertion:
`AssertionError` with an empty event trace — the model's mode was never
switched and no batch reached the processor. -/
theorem missing_progress_fails_fast (epoch : ℤ) (train_iterator : List ℕ)
    (valid_iterator : Option (List ℕ)) (processor : ℕ → Option Bool → ℚ × ℚ) :
    train_epoch epoch train_iterator valid_iterator processor none =
      ([], Except.error PyErr.assertionError) := rfl

/-- C4, evaluated at the failing input: with `track_accuracy = false`, one
training batch and one validation batch, every `processor` call in the trace
carries `trainArg = none` — the `train` keyword argument is omitted in both
loops, not passed as `true` / `false` as the claim (and the source's own
docstring) require. -/
theorem no_tracking_processor_call_trace :
    (train_epoch 0 [0] (some [1]) (fun _ _ => (1, 0))
        (some (TrainingProgress.init 0 false 1000000))).1 =
      [Event.modeTrain, Event.procCall 0 none, Event.modeEval,
        Event.procCall 1 none, Event.saved "epoch-0-0.pt"] := by
  norm_num [train_epoch, loopPhase, TrainingProgress.finish_epoch,
    TrainingProgress.update_progress, TrainingProgress.start_epoch,
    TrainingProgress.init, checkpointName, pyInt]
  rfl

end Keita
